import Mathlib

/-!
Shallow embedding of the eligibility-checker backend core
(`src/backend/src/server.ts`, `src/backend/src/middleware/errorHandler.ts`,
`src/database/init.sql`).

The pipeline is: Joi validation of `{firstName, lastName, dateOfBirth}` →
`calculateAge` → eligibility comparison (`age >= 18`) → SQL INSERT of the
determination record → JSON response.  The statistics endpoint runs a single
aggregate SQL query (`COUNT`, filtered `COUNT`s, `ROUND(AVG(age), 2)`).

Dates are modelled as calendar triples (year, month, day); strings as Lean
`String`; SQL numerics as `ℚ`; the database table as a list of rows plus the
`SERIAL` counter for the next `id`.
-/

namespace EligibilityChecker

/-- A calendar date, as the (local) year/month/day components that
`Date.getFullYear`, `Date.getMonth` (shifted to 1-based here) and
`Date.getDate` expose in `server.ts`. -/
structure CalDate where
  year : Nat
  month : Nat
  day : Nat
deriving DecidableEq, Repr

/-- Strict calendar order `a < b`: `a` is strictly before `b`.  Used to model
Joi's `.max('now')` rule on `dateOfBirth` (violated exactly when the birth
date is strictly after the evaluation date). -/
def dateBefore (a b : CalDate) : Bool :=
  a.year < b.year ∨
    (a.year = b.year ∧
      (a.month < b.month ∨ (a.month = b.month ∧ a.day < b.day)))

/-- `calculateAge` from `server.ts` lines 139–151: year difference, minus one
when today's month is before the birth month, or the months agree and today's
day-of-month is before the birth day-of-month.  The source reads the current
instant inside the function; here the evaluation date is the explicit
`today` argument. -/
def calculateAge (dateOfBirth today : CalDate) : Int :=
  let age : Int := (today.year : Int) - (dateOfBirth.year : Int)
  let monthDiff : Int := (today.month : Int) - (dateOfBirth.month : Int)
  if monthDiff < 0 ∨ (monthDiff = 0 ∧ (today.day : Int) < (dateOfBirth.day : Int)) then
    age - 1
  else
    age

/-- The character class of the Joi name pattern `/^[a-zA-Z\s'-]+$/`,
restricted to the ASCII range of `\s` (space, tab, line feed, vertical tab,
form feed, carriage return). -/
def isJsSpace (c : Char) : Bool :=
  c = ' ' || c = '\t' || c = '\n' || c = '\r' || c = '\x0b' || c = '\x0c'

/-- One character of the Joi pattern `[a-zA-Z\s'-]`: ASCII letter, whitespace,
apostrophe or hyphen. -/
def isNameChar (c : Char) : Bool :=
  c.isAlpha || isJsSpace c || c.toNat = 39 || c = '-'

/-- Joi validation of one name field
(`Joi.string().min(1).max(50).pattern(/^[a-zA-Z\s'-]+$/).required()`),
returning the message of the first violated rule, if any.  Joi reports
`string.empty` (its default message) for the empty string before any chained
rule fires; `min(1)` can then never fire on a present string, so the
reachable rules are the empty check, `max(50)` and the pattern. -/
def nameError (emptyMsg maxMsg patternMsg : String) (s : String) : Option String :=
  if s.length = 0 then some emptyMsg
  else if 50 < s.length then some maxMsg
  else if ¬ (s.data.all isNameChar) then some patternMsg
  else none

/-- `String.prototype.trim`: strip leading and trailing whitespace
(the whitespace characters arising here are covered by `Char.isWhitespace`). -/
def jsTrim (s : String) : String :=
  ⟨((s.data.dropWhile Char.isWhitespace).reverse.dropWhile Char.isWhitespace).reverse⟩

/-- `firstName` validation with the custom messages of `userSchema`
(the `string.empty` message is not overridden, so Joi's default applies). -/
def firstNameError (s : String) : Option String :=
  nameError "\"firstName\" is not allowed to be empty"
    "First name cannot exceed 50 characters"
    "First name must contain only letters, spaces, hyphens, and apostrophes" s

/-- `lastName` validation with the custom messages of `userSchema`. -/
def lastNameError (s : String) : Option String :=
  nameError "\"lastName\" is not allowed to be empty"
    "Last name cannot exceed 50 characters"
    "Last name must contain only letters, spaces, hyphens, and apostrophes" s

/-- `dateOfBirth` validation (`Joi.date().iso().max('now').required()`):
`none` stands for a string that does not parse as an ISO calendar date
(Joi's `date.format` default message), and a parsed date strictly after the
evaluation date violates `max('now')` with the custom `date.max` message. -/
def dateError (today : CalDate) (dob : Option CalDate) : Option String :=
  match dob with
  | none => some "\"dateOfBirth\" must be in ISO 8601 date format"
  | some d =>
      if dateBefore today d then some "Date of birth cannot be in the future"
      else none

/-- The raw request body of `POST /api/check-eligibility`: two string fields
and a date field (already split into parse success/failure). -/
structure RawInput where
  firstName : String
  lastName : String
  dateOfBirth : Option CalDate
deriving DecidableEq, Repr

/-- The normalized command produced by a successful validation. -/
structure UserCommand where
  firstName : String
  lastName : String
  dateOfBirth : CalDate
deriving DecidableEq, Repr

/-- `userSchema.validate(req.body)` with Joi's default options, in particular
`abortEarly: true`: object keys are checked in schema order (`firstName`,
`lastName`, `dateOfBirth`) and validation stops at the first violated rule,
so the `details` array mapped to messages in the handler holds exactly one
message on failure. -/
def validateUser (today : CalDate) (inp : RawInput) : Except (List String) UserCommand :=
  match firstNameError inp.firstName with
  | some m => .error [m]
  | none =>
    match lastNameError inp.lastName with
    | some m => .error [m]
    | none =>
      match dateError today inp.dateOfBirth with
      | some m => .error [m]
      | none =>
        match inp.dateOfBirth with
        | some d => .ok ⟨inp.firstName, inp.lastName, d⟩
        | none => .error ["\"dateOfBirth\" must be in ISO 8601 date format"]

/-- All violated rules, one message per field in the stable order
`firstName`, `lastName`, `dateOfBirth`.  This follows the spec's words
("validation failures are fully enumerated … firstName rules before lastName
rules before dateOfBirth rules"); it is the reference point the
implementation's abort-early list is compared against. -/
def allViolationMessages (today : CalDate) (inp : RawInput) : List String :=
  (firstNameError inp.firstName).toList ++ (lastNameError inp.lastName).toList ++
    (dateError today inp.dateOfBirth).toList

/-- One row of the `users` table (`init.sql`), as inserted by the handler:
trimmed names, birth date, the age computed at creation, and the eligibility
flag.  `id` is the `SERIAL` primary key. -/
structure StoredRecord where
  id : Nat
  firstName : String
  lastName : String
  dateOfBirth : CalDate
  age : Int
  isEligible : Bool
deriving DecidableEq, Repr

/-- The persistent state: the rows of `users` in insertion order, plus the
`SERIAL` counter holding the next id to assign. -/
structure StoreState where
  records : List StoredRecord
  nextId : Nat
deriving DecidableEq, Repr

/-- The caller-visible outcome of `POST /api/check-eligibility`: a 400
validation failure carrying the `details` message list, or a 201 success
carrying `id`, `age`, `eligible` and `message`. -/
inductive CheckResponse
  | validationError (details : List String)
  | success (id : Nat) (age : Int) (eligible : Bool) (message : String)
deriving DecidableEq, Repr

/-- The `POST /api/check-eligibility` handler (`server.ts` lines 154–204) on
the happy path and the validation-failure path: validate, compute the age at
`today`, compare against the fixed threshold 18, insert the row with trimmed
names, and build the response from the new id and the computed values.
(The storage-failure path goes through `errorHandler`, modelled separately.) -/
def checkEligibility (today : CalDate) (st : StoreState) (inp : RawInput) :
    StoreState × CheckResponse :=
  match validateUser today inp with
  | .error details => (st, .validationError details)
  | .ok cmd =>
      let age := calculateAge cmd.dateOfBirth today
      let isEligible : Bool := 18 ≤ age
      let row : StoredRecord :=
        ⟨st.nextId, jsTrim cmd.firstName, jsTrim cmd.lastName, cmd.dateOfBirth, age, isEligible⟩
      (⟨st.records ++ [row], st.nextId + 1⟩,
        .success st.nextId age isEligible
          (if isEligible then "You are eligible for the program"
           else "You are not eligible for the program"))

/-- The statistics payload of `GET /api/stats` after the JS layer parses the
SQL row (`parseInt` on the counts, `parseFloat(...) || 0` on the average). -/
structure Statistics where
  totalUsers : Nat
  eligibleUsers : Nat
  ineligibleUsers : Nat
  averageAge : ℚ
deriving DecidableEq, Repr

/-- PostgreSQL `ROUND(x, 2)` on a `numeric`: round half away from zero to two
decimal places (for the non-negative values arising here, `round` on `ℚ`,
which rounds half up, coincides with half away from zero). -/
def round2 (q : ℚ) : ℚ := (((100 * q + 1 / 2).floor : ℤ) : ℚ) / 100

/-- The aggregate SQL query of `GET /api/stats` (`server.ts` lines 217–240)
combined with the JS parsing layer: `COUNT(*)`, the two filtered counts, and
`ROUND(AVG(age), 2)`; on an empty table `AVG` is SQL `NULL`, which
`parseFloat(...) || 0` turns into `0`. -/
def aggregate (records : List StoredRecord) : Statistics :=
  { totalUsers := records.length
    eligibleUsers := (records.filter (fun r => r.isEligible)).length
    ineligibleUsers := (records.filter (fun r => !r.isEligible)).length
    averageAge :=
      if records.length = 0 then 0
      else round2 ((records.map (fun r => (r.age : ℚ))).sum / (records.length : ℚ)) }

/-- `GET /api/stats` reads the full table. -/
def getStatistics (st : StoreState) : Statistics :=
  aggregate st.records

/-- The exact arithmetic mean of the stored ages — the spec's words
("`averageAge`: mean of `age` across all records"), for comparison with what
the code returns. -/
def exactMeanAge (records : List StoredRecord) : ℚ :=
  ((records.map (fun r => (r.age : ℚ))).sum) / (records.length : ℚ)

/-- An error object as `errorHandler.ts` sees it: `name`, `message`, the
optional PostgreSQL error `code`, and an optional `statusCode`. -/
structure JsError where
  name : String
  message : String
  code : Option String
  statusCode : Option Nat
deriving DecidableEq, Repr

/-- The JSON body `errorHandler` sends (production mode: no `stack` spread). -/
structure ErrorBody where
  success : Bool
  error : String
deriving DecidableEq, Repr

/-- `errorHandler` from `middleware/errorHandler.ts`: PostgreSQL errors
(`err.name === 'error'` with a `code`) are rewritten to fixed messages and
status codes by code class; every other error keeps its own `message`.  The
HTTP status is `statusCode || 500` and the body message `message ||
'Internal Server Error'` (JS `||`: `0` and the empty string are falsy). -/
def errorHandler (err : JsError) : Nat × ErrorBody :=
  let e : JsError :=
    if err.name = "error" ∧ err.code.isSome then
      if err.code = some "23505" then
        { err with message := "Duplicate entry", statusCode := some 409 }
      else if err.code = some "23503" then
        { err with message := "Foreign key constraint violation", statusCode := some 400 }
      else if err.code = some "23502" then
        { err with message := "Required field missing", statusCode := some 400 }
      else
        { err with message := "Database error", statusCode := some 500 }
    else err
  let statusCode : Nat :=
    match e.statusCode with
    | some c => if c = 0 then 500 else c
    | none => 500
  let message : String := if e.message = "" then "Internal Server Error" else e.message
  (statusCode, ⟨false, message⟩)

/-! ## Helper lemmas -/

/-- Inversion for a passing name validation: the raw string is non-empty, at
most 50 characters, and drawn from the allowed character class. -/
theorem nameError_none {e m p : String} {s : String}
    (h : nameError e m p s = none) :
    1 ≤ s.length ∧ s.length ≤ 50 ∧ s.data.all isNameChar = true := by
  unfold nameError at h
  split_ifs at h with h1 h2 h3
  refine ⟨by omega, by omega, ?_⟩
  simpa using h3

/-- Inversion for a successful validation: each field validator passed, the
date parsed, it is not in the future, and the command carries the raw names
and the parsed date unchanged. -/
theorem validateUser_ok {today : CalDate} {inp : RawInput} {cmd : UserCommand}
    (h : validateUser today inp = .ok cmd) :
    firstNameError inp.firstName = none ∧ lastNameError inp.lastName = none ∧
      inp.dateOfBirth = some cmd.dateOfBirth ∧ dateBefore today cmd.dateOfBirth = false ∧
      cmd.firstName = inp.firstName ∧ cmd.lastName = inp.lastName := by
  unfold validateUser at h
  split at h
  · exact absurd h (by simp)
  split at h
  · exact absurd h (by simp)
  split at h
  · exact absurd h (by simp)
  split at h
  · rename_i d hd
    cases h
    have hdate : dateError today inp.dateOfBirth = none := by assumption
    rw [hd] at hdate
    simp only [dateError] at hdate
    have hb : dateBefore today d = false := by
      cases hbb : dateBefore today d
      · rfl
      · rw [hbb] at hdate; simp at hdate
    exact ⟨by assumption, by assumption, hd, hb, rfl, rfl⟩
  · exact absurd h (by simp)

/-- A birth date not strictly after the evaluation date yields a
non-negative `calculateAge`. -/
theorem calculateAge_nonneg {d today : CalDate}
    (h : dateBefore today d = false) : 0 ≤ calculateAge d today := by
  unfold dateBefore at h
  simp only [decide_eq_false_iff_not] at h
  simp only [calculateAge]
  split_ifs with h1 <;> omega

/-- The spec's description of the age algorithm, in its own words:
whole-years difference between `asOf` and `birthDate`, decremented by one
exactly when `asOf`'s (month, day) pair precedes `birthDate`'s (month, day)
pair. -/
def wholeYearsAge (birthDate asOf : CalDate) : Int :=
  ((asOf.year : Int) - (birthDate.year : Int)) -
    (if asOf.month < birthDate.month ∨
        (asOf.month = birthDate.month ∧ asOf.day < birthDate.day) then 1 else 0)

/-! ## Claims -/

/-- C6: for every birthDate not after asOf, `calculateAge` computes the
whole-years difference between the years, decremented by one exactly when
asOf's (month, day) pair precedes birthDate's (month, day) pair. -/
theorem claim_C6_age_algorithm (birthDate asOf : CalDate)
    (_h : dateBefore asOf birthDate = false) :
    calculateAge birthDate asOf = wholeYearsAge birthDate asOf := by
  simp only [calculateAge, wholeYearsAge]
  split_ifs with h1 h2 h2 <;> omega

/-- Witness for C6 at a concrete date pair. -/
theorem claim_C6_witness :
    dateBefore ⟨2026, 10, 11⟩ ⟨1990, 12, 25⟩ = false ∧
      calculateAge ⟨1990, 12, 25⟩ ⟨2026, 10, 11⟩ = wholeYearsAge ⟨1990, 12, 25⟩ ⟨2026, 10, 11⟩ :=
  ⟨by decide, claim_C6_age_algorithm ⟨1990, 12, 25⟩ ⟨2026, 10, 11⟩ (by decide)⟩

/-- C8: the aggregate of an empty record set is all zeroes, including
`averageAge = 0` (the SQL `AVG` is `NULL` there and `parseFloat(...) || 0`
yields `0`; the embedding is total, so no division error can be signalled). -/
theorem claim_C8_empty_aggregate :
    aggregate [] = ⟨0, 0, 0, 0⟩ := by
  simp [aggregate]

/-- C9: a validation failure performs no store append — the record set and
the `SERIAL` id counter are returned unchanged. -/
theorem claim_C9_no_write_on_validation_error (today : CalDate) (st : StoreState)
    (inp : RawInput) (l : List String)
    (h : validateUser today inp = .error l) :
    checkEligibility today st inp = (st, .validationError l) := by
  unfold checkEligibility
  rw [h]

/-- Witness for C9: an empty firstName fails validation and leaves a
concrete one-record store untouched. -/
theorem claim_C9_witness :
    checkEligibility ⟨2026, 10, 11⟩ ⟨[⟨1, "A", "B", ⟨2000, 1, 1⟩, 26, true⟩], 2⟩
        ⟨"", "Doe", some ⟨1990, 1, 1⟩⟩ =
      (⟨[⟨1, "A", "B", ⟨2000, 1, 1⟩, 26, true⟩], 2⟩,
        .validationError ["\"firstName\" is not allowed to be empty"]) :=
  claim_C9_no_write_on_validation_error ⟨2026, 10, 11⟩
    ⟨[⟨1, "A", "B", ⟨2000, 1, 1⟩, 26, true⟩], 2⟩ ⟨"", "Doe", some ⟨1990, 1, 1⟩⟩
    ["\"firstName\" is not allowed to be empty"] rfl

/-- C10: on success the response message is exactly determined by the
eligible flag: "You are eligible for the program" when true, "You are not
eligible for the program" when false. -/
theorem claim_C10_message (today : CalDate) (st st' : StoreState) (inp : RawInput)
    (id : Nat) (age : Int) (elig : Bool) (msg : String)
    (h : checkEligibility today st inp = (st', .success id age elig msg)) :
    msg = if elig then "You are eligible for the program"
          else "You are not eligible for the program" := by
  unfold checkEligibility at h
  split at h
  · exact absurd h (by simp)
  · simp only [Prod.mk.injEq, CheckResponse.success.injEq] at h
    obtain ⟨-, -, -, helig, hmsg⟩ := h
    rw [← hmsg, ← helig]

/-- Witness for C10 at a concrete successful call. -/
theorem claim_C10_witness :
    ("You are eligible for the program" : String) =
      if true then "You are eligible for the program"
      else "You are not eligible for the program" :=
  claim_C10_message ⟨2026, 10, 11⟩ ⟨[], 1⟩
    ⟨[⟨1, "John", "Doe", ⟨1990, 1, 1⟩, 36, true⟩], 2⟩
    ⟨"John", "Doe", some ⟨1990, 1, 1⟩⟩ 1 36 true
    "You are eligible for the program" (by decide)

/-- C3 fails on the code: `calculateAge` has no error signalling at all, and
on a birth date strictly after the evaluation date it returns a negative
number (here −4) instead of failing with `FutureDate`. -/
theorem claim_C3_counterexample :
    dateBefore ⟨2026, 10, 11⟩ ⟨2030, 1, 1⟩ = true ∧
      calculateAge ⟨2030, 1, 1⟩ ⟨2026, 10, 11⟩ = -4 := by
  constructor <;> decide

/-- C3 amended: the future-date check lives in validation, not in the age
computation: any input whose parsed dateOfBirth is strictly after the
evaluation date (and whose names pass their rules, so the date rule is the
one reported under abort-early) is rejected with the future-date message
before `calculateAge` runs, and the store is untouched. -/
theorem claim_C3_future_rejected_before_age (today : CalDate) (st : StoreState)
    (inp : RawInput) (d : CalDate)
    (hf : firstNameError inp.firstName = none)
    (hl : lastNameError inp.lastName = none)
    (hd : inp.dateOfBirth = some d)
    (hfut : dateBefore today d = true) :
    checkEligibility today st inp =
      (st, .validationError ["Date of birth cannot be in the future"]) := by
  unfold checkEligibility validateUser
  rw [hf, hl, hd]
  simp only [dateError, hfut]
  rfl

/-- Witness for C3 (amended) at a concrete future birth date. -/
theorem claim_C3_witness :
    checkEligibility ⟨2026, 10, 11⟩ ⟨[], 1⟩ ⟨"John", "Doe", some ⟨2030, 1, 1⟩⟩ =
      (⟨[], 1⟩, .validationError ["Date of birth cannot be in the future"]) :=
  claim_C3_future_rejected_before_age ⟨2026, 10, 11⟩ ⟨[], 1⟩
    ⟨"John", "Doe", some ⟨2030, 1, 1⟩⟩ ⟨2030, 1, 1⟩
    (by decide) (by decide) rfl (by decide)

/-- C1: every record created by a successful checkEligibility call satisfies
the creation-time invariants: it is appended to the store, its age — the
value `calculateAge` computes from its dateOfBirth at the reference date —
is non-negative, and its eligible flag holds exactly when that age is at
least 18. -/
theorem claim_C1_record_invariants (today : CalDate) (st : StoreState) (inp : RawInput)
    (st' : StoreState) (id : Nat) (age : Int) (elig : Bool) (msg : String)
    (h : checkEligibility today st inp = (st', .success id age elig msg)) :
    ∃ r : StoredRecord, st'.records = st.records ++ [r] ∧
      r.age = calculateAge r.dateOfBirth today ∧
      0 ≤ r.age ∧ (r.isEligible = true ↔ 18 ≤ r.age) := by
  unfold checkEligibility at h
  split at h
  · exact absurd h (by simp)
  · rename_i cmd hok
    obtain ⟨-, -, -, hb, -, -⟩ := validateUser_ok hok
    simp only [Prod.mk.injEq] at h
    obtain ⟨hst, -⟩ := h
    refine ⟨_, congrArg StoreState.records hst.symm, rfl, ?_, ?_⟩
    · exact calculateAge_nonneg hb
    · simp

/-- Witness for C1 at a concrete successful call. -/
theorem claim_C1_witness :
    ∃ r : StoredRecord,
      (⟨[⟨1, "John", "Doe", ⟨1990, 1, 1⟩, 36, true⟩], 2⟩ : StoreState).records =
        (⟨[], 1⟩ : StoreState).records ++ [r] ∧
      r.age = calculateAge r.dateOfBirth ⟨2026, 10, 11⟩ ∧
      0 ≤ r.age ∧ (r.isEligible = true ↔ 18 ≤ r.age) :=
  claim_C1_record_invariants ⟨2026, 10, 11⟩ ⟨[], 1⟩ ⟨"John", "Doe", some ⟨1990, 1, 1⟩⟩
    ⟨[⟨1, "John", "Doe", ⟨1990, 1, 1⟩, 36, true⟩], 2⟩ 1 36 true
    "You are eligible for the program" (by decide)

/-- C4 fails on the code: validation checks the raw, untrimmed name, so the
one-space firstName `" "` passes `min(1)` and the pattern (space is in
`\s`), yet the handler stores `firstName.trim()`, an empty string — an
accepted input whose stored name has length 0 after trimming. -/
theorem claim_C4_counterexample :
    checkEligibility ⟨2026, 10, 11⟩ ⟨[], 1⟩ ⟨" ", "Doe", some ⟨1990, 1, 1⟩⟩ =
      (⟨[⟨1, "", "Doe", ⟨1990, 1, 1⟩, 36, true⟩], 2⟩,
        .success 1 36 true "You are eligible for the program") ∧
      ("" : String).length = 0 := by
  constructor <;> decide

/-- C4 amended: every name persisted by a successful call is the trim of a
raw input string whose untrimmed length is in [1,50] and whose characters
are all letters, whitespace, hyphens or apostrophes; the trimmed stored
value itself, however, can be empty when the raw name is all whitespace. -/
theorem claim_C4_stored_names (today : CalDate) (st : StoreState) (inp : RawInput)
    (st' : StoreState) (id : Nat) (age : Int) (elig : Bool) (msg : String)
    (h : checkEligibility today st inp = (st', .success id age elig msg)) :
    ∃ r : StoredRecord, st'.records = st.records ++ [r] ∧
      r.firstName = jsTrim inp.firstName ∧ r.lastName = jsTrim inp.lastName ∧
      1 ≤ inp.firstName.length ∧ inp.firstName.length ≤ 50 ∧
      inp.firstName.data.all isNameChar = true ∧
      1 ≤ inp.lastName.length ∧ inp.lastName.length ≤ 50 ∧
      inp.lastName.data.all isNameChar = true := by
  unfold checkEligibility at h
  split at h
  · exact absurd h (by simp)
  · rename_i cmd hok
    obtain ⟨hf, hl, -, -, hcf, hcl⟩ := validateUser_ok hok
    obtain ⟨hf1, hf2, hf3⟩ := nameError_none hf
    obtain ⟨hl1, hl2, hl3⟩ := nameError_none hl
    simp only [Prod.mk.injEq] at h
    obtain ⟨hst, -⟩ := h
    exact ⟨_, congrArg StoreState.records hst.symm,
      congrArg jsTrim hcf, congrArg jsTrim hcl, hf1, hf2, hf3, hl1, hl2, hl3⟩

/-- Witness for C4 (amended) at a concrete successful call. -/
theorem claim_C4_witness :
    ∃ r : StoredRecord,
      (⟨[⟨1, "Mary Jane", "Smith", ⟨2000, 5, 5⟩, 26, true⟩], 2⟩ : StoreState).records =
        (⟨[], 1⟩ : StoreState).records ++ [r] ∧
      r.firstName = jsTrim "Mary Jane" ∧ r.lastName = jsTrim "Smith" ∧
      1 ≤ ("Mary Jane" : String).length ∧ ("Mary Jane" : String).length ≤ 50 ∧
      ("Mary Jane" : String).data.all isNameChar = true ∧
      1 ≤ ("Smith" : String).length ∧ ("Smith" : String).length ≤ 50 ∧
      ("Smith" : String).data.all isNameChar = true :=
  claim_C4_stored_names ⟨2026, 10, 11⟩ ⟨[], 1⟩ ⟨"Mary Jane", "Smith", some ⟨2000, 5, 5⟩⟩
    ⟨[⟨1, "Mary Jane", "Smith", ⟨2000, 5, 5⟩, 26, true⟩], 2⟩ 1 26 true
    "You are eligible for the program" (by decide)

/-- C2 fails on the code: Joi's default `abortEarly` stops at the first
violated rule, so for an input violating both name patterns the returned
details list holds only the firstName message and the violated lastName
rule's message is absent. -/
theorem claim_C2_counterexample :
    lastNameError "Doe456" =
        some "Last name must contain only letters, spaces, hyphens, and apostrophes" ∧
      validateUser ⟨2026, 10, 11⟩ ⟨"John123", "Doe456", some ⟨1990, 1, 1⟩⟩ =
        .error ["First name must contain only letters, spaces, hyphens, and apostrophes"] ∧
      "Last name must contain only letters, spaces, hyphens, and apostrophes" ∉
        ["First name must contain only letters, spaces, hyphens, and apostrophes"] := by
  refine ⟨by decide, rfl, by decide⟩

/-- C2 amended: on failure the returned list holds exactly one message — the
first violated rule in the stable field order firstName, lastName,
dateOfBirth (the head of the full per-field enumeration); later violations
are not reported. -/
theorem claim_C2_abort_early (today : CalDate) (inp : RawInput) (l : List String)
    (h : validateUser today inp = .error l) :
    l.length = 1 ∧ l.head? = (allViolationMessages today inp).head? := by
  unfold validateUser at h
  unfold allViolationMessages
  cases hf : firstNameError inp.firstName with
  | some m => rw [hf] at h; cases h; simp
  | none =>
  rw [hf] at h
  cases hl : lastNameError inp.lastName with
  | some m => rw [hl] at h; cases h; simp
  | none =>
  rw [hl] at h
  cases hd : inp.dateOfBirth with
  | none => rw [hd] at h; simp only [dateError] at h ⊢; cases h; simp
  | some d =>
  rw [hd] at h
  simp only [dateError] at h ⊢
  cases hb : dateBefore today d with
  | true => rw [hb] at h; simp only [if_pos rfl] at h; cases h; simp
  | false => rw [hb] at h; simp at h

/-- Witness for C2 (amended) at a concrete doubly-invalid input. -/
theorem claim_C2_witness :
    (["First name must contain only letters, spaces, hyphens, and apostrophes"] :
        List String).length = 1 ∧
      (["First name must contain only letters, spaces, hyphens, and apostrophes"] :
          List String).head? =
        (allViolationMessages ⟨2026, 10, 11⟩
          ⟨"John123", "Doe456", some ⟨1990, 1, 1⟩⟩).head? :=
  claim_C2_abort_early ⟨2026, 10, 11⟩ ⟨"John123", "Doe456", some ⟨1990, 1, 1⟩⟩
    ["First name must contain only letters, spaces, hyphens, and apostrophes"] rfl

/-- C5 fails on the code: for storage errors that do not carry a PostgreSQL
error code, `errorHandler` copies the underlying error's own `message` into
the response body, so two runs failing with different underlying storage
errors produce different caller-visible bodies (the repository's own test
expects the leaked message "Database connection failed"). -/
theorem claim_C5_counterexample :
    errorHandler ⟨"Error", "Database connection failed", none, none⟩ ≠
      errorHandler ⟨"Error", "connection terminated unexpectedly", none, none⟩ ∧
      (errorHandler ⟨"Error", "Database connection failed", none, none⟩).2.error =
        "Database connection failed" := by
  constructor <;> decide

/-- C5 amended: only the PostgreSQL-coded storage errors are made generic —
any two storage errors carrying `name = "error"` and a code outside the
specially-cased set {23505, 23503, 23502} yield the identical caller-visible
response (500, `{success: false, error: "Database error"}`), independent of
their underlying messages; errors without such a code leak their own
message. -/
theorem claim_C5_pg_generic (e1 e2 : JsError) (c1 c2 : String)
    (h1 : e1.name = "error") (h2 : e2.name = "error")
    (hc1 : e1.code = some c1) (hc2 : e2.code = some c2)
    (hn1 : c1 ≠ "23505" ∧ c1 ≠ "23503" ∧ c1 ≠ "23502")
    (hn2 : c2 ≠ "23505" ∧ c2 ≠ "23503" ∧ c2 ≠ "23502") :
    errorHandler e1 = errorHandler e2 ∧
      errorHandler e1 = (500, ⟨false, "Database error"⟩) := by
  have he : ∀ e : JsError, ∀ c : String, e.name = "error" → e.code = some c →
      c ≠ "23505" → c ≠ "23503" → c ≠ "23502" →
      errorHandler e = (500, ⟨false, "Database error"⟩) := by
    intro e c hn hc d1 d2 d3
    unfold errorHandler
    rw [hn, hc]
    simp [Option.some.injEq, d1, d2, d3]
  rw [he e1 c1 h1 hc1 hn1.1 hn1.2.1 hn1.2.2, he e2 c2 h2 hc2 hn2.1 hn2.2.1 hn2.2.2]
  exact ⟨rfl, rfl⟩

/-- Witness for C5 (amended) at two concrete differently-caused pg errors. -/
theorem claim_C5_witness :
    errorHandler ⟨"error", "deadlock detected", some "40P01", none⟩ =
        errorHandler ⟨"error", "could not serialize access", some "40001", none⟩ ∧
      errorHandler ⟨"error", "deadlock detected", some "40P01", none⟩ =
        (500, ⟨false, "Database error"⟩) :=
  claim_C5_pg_generic ⟨"error", "deadlock detected", some "40P01", none⟩
    ⟨"error", "could not serialize access", some "40001", none⟩ "40P01" "40001"
    rfl rfl rfl rfl (by decide) (by decide)

/-- `round2` written through Mathlib's `round` (for the distance bound). -/
theorem round2_eq_round (q : ℚ) : round2 q = ((round (100 * q) : ℤ) : ℚ) / 100 := by
  rw [round2, round_eq]
  have hfl : (100 * q + 1 / 2).floor = ⌊(100 * q + 1 / 2 : ℚ)⌋ := by
    rw [Rat.floor_def', Rat.floor_def]
  rw [hfl]

/-- Rounding to two decimal places moves a rational by at most 1/200. -/
theorem abs_round2_sub (q : ℚ) : |round2 q - q| ≤ 1 / 200 := by
  rw [round2_eq_round]
  have h2 : |((round (100 * q) : ℤ) : ℚ) - 100 * q| ≤ 1 / 2 := by
    rw [abs_sub_comm]
    exact abs_sub_round (100 * q)
  have h3 : ((round (100 * q) : ℤ) : ℚ) / 100 - q =
      (((round (100 * q) : ℤ) : ℚ) - 100 * q) / 100 := by ring
  rw [h3, abs_div, show |(100 : ℚ)| = 100 by norm_num]
  calc |((round (100 * q) : ℤ) : ℚ) - 100 * q| / 100
      ≤ (1 / 2) / 100 := by
        exact (div_le_div_iff_of_pos_right (by norm_num)).mpr h2
    _ = 1 / 200 := by norm_num

/-- C7 fails on the code: the statistics query returns
`ROUND(AVG(age), 2)`, not the exact mean; with stored ages 0, 0 and 1 the
exact mean is 1/3 but the returned `averageAge` is 0.33. -/
theorem claim_C7_counterexample :
    (getStatistics ⟨[⟨1, "A", "B", ⟨2026, 1, 1⟩, 0, false⟩,
        ⟨2, "C", "D", ⟨2026, 1, 2⟩, 0, false⟩,
        ⟨3, "E", "F", ⟨2025, 1, 1⟩, 1, false⟩], 4⟩).averageAge ≠
      exactMeanAge [⟨1, "A", "B", ⟨2026, 1, 1⟩, 0, false⟩,
        ⟨2, "C", "D", ⟨2026, 1, 2⟩, 0, false⟩,
        ⟨3, "E", "F", ⟨2025, 1, 1⟩, 1, false⟩] := by
  simp only [getStatistics, aggregate, exactMeanAge, round2]
  norm_num
  rw [Rat.floor_def', ← Rat.floor_def]
  norm_num

/-- C7 amended: `averageAge` is the exact mean rounded to two decimal places
(PostgreSQL `ROUND(AVG(age), 2)`), hence within 1/200 of the exact mean but
in general not equal to it. -/
theorem claim_C7_average_rounded (st : StoreState) (h : st.records ≠ []) :
    (getStatistics st).averageAge = round2 (exactMeanAge st.records) ∧
      |(getStatistics st).averageAge - exactMeanAge st.records| ≤ 1 / 200 := by
  have hlen : st.records.length ≠ 0 := fun hh => h (List.length_eq_zero.mp hh)
  have h1 : (getStatistics st).averageAge = round2 (exactMeanAge st.records) := by
    simp only [getStatistics, aggregate, exactMeanAge]
    rw [if_neg hlen]
  refine ⟨h1, ?_⟩
  rw [h1]
  exact abs_round2_sub _

/-- Witness for C7 (amended) at a concrete non-empty store. -/
theorem claim_C7_witness :
    ([⟨1, "A", "B", ⟨2000, 1, 1⟩, 26, true⟩] : List StoredRecord) ≠ [] ∧
      ((getStatistics ⟨[⟨1, "A", "B", ⟨2000, 1, 1⟩, 26, true⟩], 2⟩).averageAge =
          round2 (exactMeanAge [⟨1, "A", "B", ⟨2000, 1, 1⟩, 26, true⟩]) ∧
        |(getStatistics ⟨[⟨1, "A", "B", ⟨2000, 1, 1⟩, 26, true⟩], 2⟩).averageAge -
            exactMeanAge [⟨1, "A", "B", ⟨2000, 1, 1⟩, 26, true⟩]| ≤ 1 / 200) :=
  ⟨by decide, claim_C7_average_rounded ⟨[⟨1, "A", "B", ⟨2000, 1, 1⟩, 26, true⟩], 2⟩ (by decide)⟩

end EligibilityChecker
